import Mathlib

/-!
# Verification of the SaaS usage-collection integration layer

Shallow embedding of `src/api_handler.py` (class `APIHandler`) and
`src/data_collector.py` (class `DataCollector`).  External vendor calls
(the Stripe SDK, `requests`, `boto3`, the Google Analytics client, the
`pandas` library) are modelled as an explicit environment `Env`; the
mutable instance/log state is threaded explicitly as `State`.  Python
exceptions become `Except PyError`: a `try/except C as e: log; raise`
block becomes a pattern match that appends the log entry when the error
matches class `C` and re-signals the error either way.
-/

/-- The error-taxonomy kinds named in the specification (§7).  The Python
source never constructs any of these; they are declared so that claims of
the form "fails with the taxonomy error X" can be stated and compared
against what the code actually signals. -/
inductive TaxErr where
  | SignatureInvalid
  | MalformedPayload
  | ProviderUnavailable
  | InvalidProperty
  | MalformedResponse
  | SinkWriteFailed
deriving Repr, DecidableEq

/-- Python exception classes that can cross the boundaries of the embedded
functions.  `stripeSignatureVerification` is
`stripe.error.SignatureVerificationError` (a subclass of
`stripe.error.StripeError`, modelled by `stripeError` for other members of
that class); `httpError` is `requests.exceptions.HTTPError` raised by
`raise_for_status` (a subclass of `RequestException`, whose other members
are `requestException`); `boto3Error` is `boto3.exceptions.Boto3Error`
while `botocoreClientError` is `botocore.exceptions.ClientError`, which is
NOT a `Boto3Error`; `valueError` is the `ValueError` pandas raises on a
column-count mismatch; `nameError` models the `NameError` produced when
`api_handler.py` line 116 evaluates the unimported name `google` in its
`except` clause; `taxonomy` injects the spec's taxonomy kinds (never
produced by the code). -/
inductive PyError where
  | stripeSignatureVerification (msg : String)
  | stripeError (msg : String)
  | httpError (status : Nat)
  | requestException (msg : String)
  | boto3Error (msg : String)
  | botocoreClientError (msg : String)
  | googleAPIError (msg : String)
  | valueError (msg : String)
  | nameError (msg : String)
  | taxonomy (e : TaxErr)
deriving Repr, DecidableEq

/-- `str(e)` as used in the source's log f-strings. -/
def PyError.msg : PyError → String
  | .stripeSignatureVerification m => m
  | .stripeError m => m
  | .httpError s => "HTTP error " ++ toString s
  | .requestException m => m
  | .boto3Error m => m
  | .botocoreClientError m => m
  | .googleAPIError m => m
  | .valueError m => m
  | .nameError m => m
  | .taxonomy _ => "taxonomy error"

/-- `isinstance(e, stripe.error.StripeError)`. -/
def PyError.isStripeError : PyError → Bool
  | .stripeSignatureVerification _ => true
  | .stripeError _ => true
  | _ => false

/-- `isinstance(e, boto3.exceptions.Boto3Error)`.  `botocore` client errors
are not in this class. -/
def PyError.isBoto3Error : PyError → Bool
  | .boto3Error _ => true
  | _ => false

/-- The four credential fields set in `APIHandler.__init__`
(lines 30-33 of `api_handler.py`). -/
structure Creds where
  stripe_key : String
  aws_access_key_id : String
  aws_secret_access_key : String
  ganalytics_api_key : String
deriving Repr, DecidableEq

/-- Mutable process state threaded through the embedded methods: the
credential fields of the `APIHandler` instance, the module-global
`stripe.api_key` assigned in `_init_clients`, and the accumulated log
(`logger.info` / `logger.error` lines). -/
structure State where
  creds : Creds
  stripe_api_key_global : String
  log : List String
deriving Repr, DecidableEq

/-- Append one log line (a `logger.info` or `logger.error` call). -/
def pushLog (st : State) (line : String) : State :=
  { st with log := st.log ++ [line] }

/-- A JSON-object payload, kept abstract as a string-to-string mapping. -/
abbrev JsonMap := List (String × String)

/-- Result of `requests.get`: a status code and the value `response.json()`
would return. -/
structure HttpResponse where
  status : Nat
  body : JsonMap
deriving Repr, DecidableEq

/-- An outgoing HTTP request as built in `_fetch_stripe_data`: the endpoint
URL and the `Authorization` header. -/
structure HttpRequest where
  url : String
  authHeader : String
deriving Repr, DecidableEq

/-- A Stripe event object as returned by
`stripe.Webhook.construct_event`: the fields `event.type` and `event.id`
read by `process_stripe_webhook`. -/
structure StripeEvent where
  type : String
  id : String
deriving Repr, DecidableEq

/-- The `payload` dict handed to `process_stripe_webhook`, with its
`payload['payload']` and `payload['sig']` entries. -/
structure WebhookPayload where
  payload : String
  sig : String
deriving Repr, DecidableEq

/-- One element of `response['Buckets']` from `s3_client.list_buckets`,
with its `bucket['Name']` field. -/
structure S3Bucket where
  Name : String
deriving Repr, DecidableEq

/-- The response of `s3_client.list_buckets`. -/
structure S3ListResult where
  Buckets : List S3Bucket
deriving Repr, DecidableEq

/-- The dictionary `get_aws_usage` returns on success. -/
structure AwsUsage where
  buckets : List String
  region : String
deriving Repr, DecidableEq

/-- The `request_body` dict built in `get_google_analytics_data`
(lines 106-111 of `api_handler.py`) together with the `property_id`
argument of `query_report`. -/
structure GAQuery where
  metrics : List String
  dimensions : List String
  start_date : String
  end_date : String
  property_id : String
deriving Repr, DecidableEq

/-- `response.to_dict()` of the analytics client: the `columnHeaders` and
`rows` entries read by `_fetch_google_analytics_data`. -/
structure GAResponse where
  columnHeaders : List String
  rows : List (List String)
deriving Repr, DecidableEq

/-- Behaviour of the external world during one invocation: the vendor SDK
calls the embedded methods make.  `constructEvent` is
`stripe.Webhook.construct_event (body, sig, secret)`; `httpGet` is
`requests.get` on the payouts endpoint; `listBuckets` is
`s3_client.list_buckets()`; `s3Region` is
`s3_client._client_config.region_name`; `queryReport` is
`ganalytics.query_report`. -/
structure Env where
  constructEvent : String → String → String → Except PyError StripeEvent
  httpGet : HttpRequest → HttpResponse
  listBuckets : Except PyError S3ListResult
  s3Region : String
  queryReport : GAQuery → Except PyError GAResponse

/-! ## APIHandler methods (`src/api_handler.py`) -/

/-- `APIHandler.process_stripe_webhook` (lines 52-75): verify the event via
the SDK using `self.stripe_key` as secret; on success log only for type
`payment_succeeded` and fall off the end (return `None`, here `Unit`); on
failure log (`Stripe error` for `StripeError`s, `Unexpected error` for the
rest) and re-raise. -/
def process_stripe_webhook (p : WebhookPayload) (env : Env) (st : State) :
    Except PyError Unit × State :=
  match env.constructEvent p.payload p.sig st.creds.stripe_key with
  | .ok event =>
      if event.type = "payment_succeeded" then
        (.ok (), pushLog st ("Payment succeeded: " ++ event.id))
      else
        (.ok (), st)
  | .error e =>
      if e.isStripeError then
        (.error e, pushLog st ("Stripe error: " ++ e.msg))
      else
        (.error e, pushLog st ("Unexpected error processing Stripe webhook: " ++ e.msg))

/-- `APIHandler.get_aws_usage` (lines 77-94): list buckets, extract the
`Name` of each, pair with the client's region.  The `except` clause
catches only `boto3.exceptions.Boto3Error` (logging then re-raising); any
other exception — in particular the `botocore` client error raised for
invalid credentials — propagates unlogged and unmapped. -/
def get_aws_usage (env : Env) (st : State) : Except PyError AwsUsage × State :=
  match env.listBuckets with
  | .ok resp =>
      (.ok { buckets := resp.Buckets.map (fun b => b.Name), region := env.s3Region }, st)
  | .error e =>
      if e.isBoto3Error then
        (.error e, pushLog st ("AWS Error: " ++ e.msg))
      else
        (.error e, st)

/-- The report query `get_google_analytics_data` submits for a property
(lines 105-113): fixed metric `activeUsers`, fixed dimension `date`, and a
hard-coded date window `2023-01-01 .. 2023-12-31`.  The method has no
date-range parameter. -/
def gaQuery (property_id : String) : GAQuery :=
  { metrics := ["activeUsers"]
    dimensions := ["date"]
    start_date := "2023-01-01"
    end_date := "2023-12-31"
    property_id := property_id }

/-- `APIHandler.get_google_analytics_data` (lines 96-118): submit
`gaQuery property_id` and return the response dict.  If `query_report`
raises, evaluating the `except` clause's unimported name
`google.api_core.exceptions.GoogleAPIError` raises `NameError`, which is
what actually propagates. -/
def get_google_analytics_data (property_id : String) (env : Env) (st : State) :
    Except PyError GAResponse × State :=
  match env.queryReport (gaQuery property_id) with
  | .ok resp => (.ok resp, st)
  | .error _ => (.error (.nameError "name 'google' is not defined"), st)

/-! ## pandas reshaping (`pd.DataFrame(rows, columns=headers).to_dict('records')`) -/

/-- Width pandas infers for a list-of-lists: the maximum row length. -/
def dfWidth (rows : List (List String)) : Nat :=
  rows.foldr (fun r acc => max r.length acc) 0

/-- One row padded to width `w` with missing values (`NaN`, modelled as
`none`), as pandas aligns ragged nested lists. -/
def padRow (w : Nat) (row : List String) : List (Option String) :=
  row.map some ++ List.replicate (w - row.length) none

/-- `pd.DataFrame(rows, columns=headers).to_dict('records')`.  An empty
row list yields an empty frame with the given columns.  Otherwise pandas
aligns rows to the inferred width, padding short rows with `NaN`, and
raises `ValueError` when that width differs from the number of column
labels passed; `to_dict('records')` maps each row to an ordered
column-name → cell record. -/
def pandasRecords (rows : List (List String)) (headers : List String) :
    Except PyError (List (List (String × Option String))) :=
  if rows.isEmpty then .ok []
  else if dfWidth rows ≠ headers.length then
    .error (.valueError (toString headers.length ++ " columns passed, passed data had "
      ++ toString (dfWidth rows) ++ " columns"))
  else
    .ok (rows.map (fun r => headers.zip (padRow headers.length r)))

/-! ## DataCollector methods (`src/data_collector.py`) -/

/-- The payouts request built in `_fetch_stripe_data` (lines 67-70): the
fixed endpoint and a bearer header from the handler's Stripe key.  The
`saas_id` argument is taken but never used. -/
def stripeUsageRequest (saas_id : String) (c : Creds) : HttpRequest :=
  let _ := saas_id
  { url := "https://api.stripe.com/v1/payouts"
    authHeader := "Bearer " ++ c.stripe_key }

/-- `DataCollector._fetch_stripe_data` (lines 58-78): GET the payouts
endpoint, `raise_for_status` (an `HTTPError` when the status is ≥ 400),
return `response.json()`.  `RequestException`s are logged and re-raised. -/
def _fetch_stripe_data (saas_id : String) (env : Env) (st : State) :
    Except PyError JsonMap × State :=
  let resp := env.httpGet (stripeUsageRequest saas_id st.creds)
  if 400 ≤ resp.status then
    let e : PyError := .httpError resp.status
    (.error e, pushLog st ("Stripe API request failed: " ++ e.msg))
  else
    (.ok resp.body, st)

/-- `DataCollector._fetch_google_analytics_data` (lines 80-98): fetch the
analytics response for `saas_id`, reshape it with pandas into row-records,
log the row count.  The broad `except Exception` logs and re-raises
anything that goes wrong in either step. -/
def _fetch_google_analytics_data (saas_id : String) (env : Env) (st : State) :
    Except PyError (List (List (String × Option String))) × State :=
  let r := get_google_analytics_data saas_id env st
  match r.1 with
  | .ok resp =>
      match pandasRecords resp.rows resp.columnHeaders with
      | .ok records =>
          (.ok records,
           pushLog r.2 ("Successfully processed " ++ toString records.length ++ " rows of GA data"))
      | .error e =>
          (.error e, pushLog r.2 ("Failed to process Google Analytics data: " ++ e.msg))
  | .error e =>
      (.error e, pushLog r.2 ("Failed to process Google Analytics data: " ++ e.msg))

/-- The dictionary `fetch_saaS_usage` returns when all three sub-fetches
succeed. -/
structure UsageDict where
  stripe : JsonMap
  aws : AwsUsage
  ga : List (List (String × Option String))
deriving Repr, DecidableEq

/-- `DataCollector.fetch_saaS_usage` (lines 31-56): run the three
sub-fetches in sequence inside one `try` block; the first exception is
logged and re-raised, aborting the remaining sub-fetches; only if all
three succeed is the combined dictionary returned. -/
def fetch_saaS_usage (saas_id : String) (env : Env) (st : State) :
    Except PyError UsageDict × State :=
  let r1 := _fetch_stripe_data saas_id env st
  match r1.1 with
  | .error e =>
      (.error e, pushLog r1.2 ("Failed to fetch SaaS usage: " ++ e.msg))
  | .ok stripe_data =>
      let r2 := get_aws_usage env r1.2
      match r2.1 with
      | .error e =>
          (.error e, pushLog r2.2 ("Failed to fetch SaaS usage: " ++ e.msg))
      | .ok aws_data =>
          let r3 := _fetch_google_analytics_data saas_id env r2.2
          match r3.1 with
          | .error e =>
              (.error e, pushLog r3.2 ("Failed to fetch SaaS usage: " ++ e.msg))
          | .ok ga_data =>
              (.ok { stripe := stripe_data, aws := aws_data, ga := ga_data }, r3.2)

/-! ## Spec-side type for the webhook claim (refinement comparison only) -/

/-- The spec's tagged event outcome (`PaymentSucceeded(id) | Other(type)`),
stated from the spec's words for comparison with the code's actual `Unit`
return; the source has no such type. -/
inductive EventOutcome where
  | PaymentSucceeded (id : String)
  | Other (type : String)
deriving Repr, DecidableEq

/-! ## Concrete fixtures -/

/-- The credential literals assigned in `APIHandler.__init__`. -/
def creds0 : Creds :=
  { stripe_key := "STRIPE_API_KEY"
    aws_access_key_id := "AWS_ACCESS_KEY_ID"
    aws_secret_access_key := "AWS_SECRET_ACCESS_KEY"
    ganalytics_api_key := "G_ANALYTICS_API_KEY" }

/-- Initial state after `__init__` / `_init_clients`. -/
def st0 : State :=
  { creds := creds0, stripe_api_key_global := "STRIPE_API_KEY", log := [] }

/-- The columnar analytics response of the spec's round-trip example. -/
def gaRespOk : GAResponse :=
  { columnHeaders := ["date", "activeUsers"]
    rows := [["2023-01-01", "10"], ["2023-01-02", "12"]] }

/-- Environment in which all three providers behave: the webhook verifies
to a payment-success event, the payouts GET returns 200, bucket listing
succeeds, and the analytics report returns `gaRespOk`. -/
def envOk : Env :=
  { constructEvent := fun _ _ _ => .ok { type := "payment_succeeded", id := "evt_1" }
    httpGet := fun _ => { status := 200, body := [("object", "list")] }
    listBuckets := .ok { Buckets := [{ Name := "bucket-a" }, { Name := "bucket-b" }] }
    s3Region := "us-east-1"
    queryReport := fun _ => .ok gaRespOk }

/-- Like `envOk` but the payments provider is down: the payouts GET
returns HTTP 500 (so `raise_for_status` raises). -/
def envStripeFail : Env :=
  { envOk with httpGet := fun _ => { status := 500, body := [] } }

/-- Like `envOk` but the storage credentials are invalid: `list_buckets`
raises the `botocore` client error. -/
def envAwsFail : Env :=
  { envOk with listBuckets := .error (.botocoreClientError "InvalidAccessKeyId") }

/-- Like `envOk` but the webhook signature is tampered: `construct_event`
raises `SignatureVerificationError`. -/
def envSigTampered : Env :=
  { envOk with constructEvent := fun _ _ _ => .error (.stripeSignatureVerification "signature mismatch") }

/-- Like `envOk` but the verified event has a non-payment type. -/
def envOtherEvent : Env :=
  { envOk with constructEvent := fun _ _ _ => .ok { type := "invoice.paid", id := "evt_2" } }

/-- A concrete webhook payload dict. -/
def p0 : WebhookPayload := { payload := "\x7b\x7d", sig := "t=1,v1=abc" }

/-! ## Helper lemmas -/

lemma pushLog_creds (st : State) (l : String) : (pushLog st l).creds = st.creds := rfl

/-- The value returned by `get_aws_usage` does not depend on the state. -/
lemma get_aws_usage_fst (env : Env) (st st' : State) :
    (get_aws_usage env st).1 = (get_aws_usage env st').1 := by
  unfold get_aws_usage
  cases env.listBuckets with
  | ok r => rfl
  | error e => cases he : e.isBoto3Error <;> simp [he]

/-- The value returned by `get_google_analytics_data` does not depend on
the state. -/
lemma get_google_analytics_data_fst (s : String) (env : Env) (st st' : State) :
    (get_google_analytics_data s env st).1 = (get_google_analytics_data s env st').1 := by
  unfold get_google_analytics_data
  cases env.queryReport (gaQuery s) <;> rfl


/-- The second component of `get_google_analytics_data` is the unchanged
input state. -/
lemma get_google_analytics_data_snd (s : String) (env : Env) (st : State) :
    (get_google_analytics_data s env st).2 = st := by
  unfold get_google_analytics_data
  cases env.queryReport (gaQuery s) <;> rfl

/-- The value returned by `_fetch_google_analytics_data` does not depend
on the state. -/
lemma _fetch_google_analytics_data_fst (s : String) (env : Env) (st st' : State) :
    (_fetch_google_analytics_data s env st).1 = (_fetch_google_analytics_data s env st').1 := by
  unfold _fetch_google_analytics_data
  dsimp only
  rw [get_google_analytics_data_fst s env st st']
  cases (get_google_analytics_data s env st').1 with
  | ok resp =>
      dsimp only
      cases pandasRecords resp.rows resp.columnHeaders <;> rfl
  | error e => rfl

lemma process_stripe_webhook_creds (p : WebhookPayload) (env : Env) (st : State) :
    (process_stripe_webhook p env st).2.creds = st.creds := by
  unfold process_stripe_webhook
  cases env.constructEvent p.payload p.sig st.creds.stripe_key with
  | ok ev => dsimp only; split <;> rfl
  | error e => dsimp only; split <;> rfl

lemma get_aws_usage_creds (env : Env) (st : State) :
    (get_aws_usage env st).2.creds = st.creds := by
  unfold get_aws_usage
  cases env.listBuckets with
  | ok r => rfl
  | error e => dsimp only; split <;> rfl

lemma get_google_analytics_data_creds (s : String) (env : Env) (st : State) :
    (get_google_analytics_data s env st).2.creds = st.creds := by
  rw [get_google_analytics_data_snd]

lemma _fetch_stripe_data_creds (s : String) (env : Env) (st : State) :
    (_fetch_stripe_data s env st).2.creds = st.creds := by
  unfold _fetch_stripe_data
  dsimp only
  split <;> rfl

lemma _fetch_google_analytics_data_creds (s : String) (env : Env) (st : State) :
    (_fetch_google_analytics_data s env st).2.creds = st.creds := by
  unfold _fetch_google_analytics_data
  dsimp only
  rw [get_google_analytics_data_snd]
  cases (get_google_analytics_data s env st).1 with
  | ok resp =>
      dsimp only
      cases pandasRecords resp.rows resp.columnHeaders <;> rfl
  | error e => rfl

lemma fetch_saaS_usage_creds (s : String) (env : Env) (st : State) :
    (fetch_saaS_usage s env st).2.creds = st.creds := by
  unfold fetch_saaS_usage
  dsimp only
  cases (_fetch_stripe_data s env st).1 with
  | error e =>
      dsimp only
      rw [pushLog_creds, _fetch_stripe_data_creds]
  | ok d =>
      dsimp only
      cases (get_aws_usage env (_fetch_stripe_data s env st).2).1 with
      | error e =>
          dsimp only
          rw [pushLog_creds, get_aws_usage_creds, _fetch_stripe_data_creds]
      | ok a =>
          dsimp only
          cases (_fetch_google_analytics_data s env
              (get_aws_usage env (_fetch_stripe_data s env st).2).2).1 with
          | error e =>
              dsimp only
              rw [pushLog_creds, _fetch_google_analytics_data_creds,
                  get_aws_usage_creds, _fetch_stripe_data_creds]
          | ok g =>
              dsimp only
              rw [_fetch_google_analytics_data_creds,
                  get_aws_usage_creds, _fetch_stripe_data_creds]

/-- The aggregate fetch yields a dictionary exactly when all three
sub-fetches yield values; the first failure is what propagates. -/
lemma fetch_ok_core (s : String) (env : Env) (st : State) :
    (fetch_saaS_usage s env st).1.isOk =
      ((_fetch_stripe_data s env st).1.isOk &&
       (get_aws_usage env st).1.isOk &&
       (_fetch_google_analytics_data s env st).1.isOk) := by
  unfold fetch_saaS_usage
  dsimp only
  cases h1 : (_fetch_stripe_data s env st).1 with
  | error e => simp [Except.isOk, Except.toBool]
  | ok d =>
      dsimp only
      rw [get_aws_usage_fst env (_fetch_stripe_data s env st).2 st]
      cases h2 : (get_aws_usage env st).1 with
      | error e => simp [Except.isOk, Except.toBool]
      | ok a =>
          dsimp only
          rw [_fetch_google_analytics_data_fst s env
              (get_aws_usage env (_fetch_stripe_data s env st).2).2 st]
          cases h3 : (_fetch_google_analytics_data s env st).1 with
          | error e => simp [Except.isOk, Except.toBool]
          | ok g => simp [Except.isOk, Except.toBool]

/-! ## Further fixtures for the analytics reshaping claims -/

/-- Analytics response with a ragged short row while another row spans the
full header width: pandas pads the short row with `NaN`. -/
def envGaRagged : Env :=
  { envOk with queryReport := fun _ => .ok { columnHeaders := ["date", "activeUsers"], rows := [["a", "b"], ["c"]] } }

/-- Analytics response in which every row is shorter than the header list
(the spec's example: header length 2, row length 1). -/
def envGaShort : Env :=
  { envOk with queryReport := fun _ => .ok { columnHeaders := ["date", "activeUsers"], rows := [["a"]] } }

/-- `dfWidth` of a nonempty list whose rows all have length `L` is `L`. -/
lemma dfWidth_of_uniform (rows : List (List String)) (L : Nat) (hne : rows ≠ [])
    (h : ∀ r ∈ rows, r.length = L) : dfWidth rows = L := by
  induction rows with
  | nil => exact absurd rfl hne
  | cons r rs ih =>
      have hr : r.length = L := h r (List.mem_cons_self r rs)
      rcases eq_or_ne rs [] with hrs | hrs
      · subst hrs; simp [dfWidth, hr]
      · have hdw : dfWidth rs = L := ih hrs (fun x hx => h x (List.mem_cons_of_mem r hx))
        simp only [dfWidth, List.foldr] at hdw ⊢
        rw [hr, hdw, Nat.max_self]

/-- A row already at full width is padded by nothing. -/
lemma padRow_full (L : Nat) (r : List String) (h : r.length = L) :
    padRow L r = r.map some := by
  simp [padRow, h]

/-- When every row matches the header count, pandas neither pads nor
raises and `to_dict('records')` pairs headers with cells in row order. -/
lemma pandasRecords_uniform (rows : List (List String)) (headers : List String)
    (h : ∀ r ∈ rows, r.length = headers.length) :
    pandasRecords rows headers = .ok (rows.map (fun r => headers.zip (r.map some))) := by
  cases hr : rows with
  | nil => simp [pandasRecords]
  | cons r rs =>
      have hne : rows ≠ [] := by rw [hr]; exact List.cons_ne_nil r rs
      have hw : dfWidth rows = headers.length := dfWidth_of_uniform rows headers.length hne h
      rw [← hr]
      unfold pandasRecords
      rw [if_neg (by simp [hr]), if_neg (by simp [hw])]
      congr 1
      refine List.map_congr_left ?_
      intro x hx
      rw [padRow_full headers.length x (h x hx)]

/-! ## Claim C1 -/

/-- C1 as stated is false: in `envStripeFail` the payments sub-fetch fails
(HTTP 500) while storage and analytics would succeed, yet
`fetch_saaS_usage` does not return a usage record with one failure slot —
it aborts, re-raising the payments exception. -/
theorem C1_counterexample :
    (fetch_saaS_usage "app-1" envStripeFail st0).1 = Except.error (PyError.httpError 500) := by
  rfl

/-- C1 amended: when exactly one of the three provider sub-fetches fails,
`fetch_saaS_usage` returns no record at all — the failure propagates to
the caller; the source has no per-provider failure boundary. -/
theorem C1_single_provider_failure_aborts_fetch (s : String) (env : Env) (st : State)
    (h :
      ((_fetch_stripe_data s env st).1.isOk = false ∧ (get_aws_usage env st).1.isOk = true ∧
        (_fetch_google_analytics_data s env st).1.isOk = true) ∨
      ((_fetch_stripe_data s env st).1.isOk = true ∧ (get_aws_usage env st).1.isOk = false ∧
        (_fetch_google_analytics_data s env st).1.isOk = true) ∨
      ((_fetch_stripe_data s env st).1.isOk = true ∧ (get_aws_usage env st).1.isOk = true ∧
        (_fetch_google_analytics_data s env st).1.isOk = false)) :
    (fetch_saaS_usage s env st).1.isOk = false := by
  rcases h with ⟨h1, h2, h3⟩ | ⟨h1, h2, h3⟩ | ⟨h1, h2, h3⟩ <;>
    simp [fetch_ok_core, h1, h2, h3]

/-- C1 witness: the amended theorem applied in `envStripeFail`, where only
the payments sub-fetch fails. -/
theorem C1_witness : (fetch_saaS_usage "app-1" envStripeFail st0).1.isOk = false :=
  C1_single_provider_failure_aborts_fetch "app-1" envStripeFail st0
    (Or.inl ⟨by rfl, by rfl, by rfl⟩)

/-! ## Claim C2 -/

/-- C2 as stated is false: with invalid storage credentials
(`envAwsFail`) the aggregate fetch raises the unhandled `botocore` client
error to its caller — a provider failure, not a non-recoverable assembly
error. -/
theorem C2_counterexample :
    (fetch_saaS_usage "app-1" envAwsFail st0).1 =
      Except.error (PyError.botocoreClientError "InvalidAccessKeyId") := by
  rfl

/-- C2 amended: `fetch_saaS_usage` returns a record exactly when all three
sub-fetches succeed; any sub-fetch exception is logged and re-raised to
the caller. -/
theorem C2_fetch_ok_iff_all_sub_fetches_ok (s : String) (env : Env) (st : State) :
    (fetch_saaS_usage s env st).1.isOk = true ↔
      ((_fetch_stripe_data s env st).1.isOk = true ∧ (get_aws_usage env st).1.isOk = true ∧
       (_fetch_google_analytics_data s env st).1.isOk = true) := by
  rw [fetch_ok_core]
  simp [and_assoc]

/-! ## Claim C3 -/

/-- C3 as stated is false: for triples the verification algorithm accepts,
`process_stripe_webhook` returns Python `None` (unit) whatever the event —
the results for a payment-success event (`envOk`, id `evt_1`) and for an
event of another type (`envOtherEvent`, type `invoice.paid`) are the same
untagged value, while the claimed outcomes `PaymentSucceeded "evt_1"` and
`Other "invoice.paid"` are distinct. -/
theorem C3_counterexample :
    (process_stripe_webhook p0 envOk st0).1 = (process_stripe_webhook p0 envOtherEvent st0).1 ∧
    (process_stripe_webhook p0 envOk st0).1 = Except.ok () ∧
    EventOutcome.PaymentSucceeded "evt_1" ≠ EventOutcome.Other "invoice.paid" :=
  ⟨rfl, rfl, by decide⟩

/-- C3 amended: on every triple the verification algorithm accepts, the
handler completes without raising (in particular never a verification
error) but returns unit, not a tagged outcome; a payment-success event is
distinguished only by a log entry. -/
theorem C3_accepted_webhook_returns_none_never_fails (p : WebhookPayload) (env : Env)
    (st : State) (ev : StripeEvent)
    (h : env.constructEvent p.payload p.sig st.creds.stripe_key = .ok ev) :
    process_stripe_webhook p env st =
      (.ok (), if ev.type = "payment_succeeded"
               then pushLog st ("Payment succeeded: " ++ ev.id) else st) := by
  unfold process_stripe_webhook
  rw [h]
  dsimp only
  by_cases hc : ev.type = "payment_succeeded" <;> simp [hc]

/-- C3 witness: the amended theorem at a concrete accepted
payment-success event. -/
theorem C3_witness :
    process_stripe_webhook p0 envOk st0 = (.ok (), pushLog st0 "Payment succeeded: evt_1") :=
  C3_accepted_webhook_returns_none_never_fails p0 envOk st0
    { type := "payment_succeeded", id := "evt_1" } rfl

/-! ## Claim C4 -/

/-- C4 as stated is false: on a tampered signature the handler re-raises
the provider's `SignatureVerificationError` unmapped, which is not the
taxonomy error `SignatureInvalid`. -/
theorem C4_counterexample :
    (process_stripe_webhook p0 envSigTampered st0).1 =
      Except.error (PyError.stripeSignatureVerification "signature mismatch") ∧
    (Except.error (PyError.stripeSignatureVerification "signature mismatch") :
      Except PyError Unit) ≠ Except.error (PyError.taxonomy TaxErr.SignatureInvalid) :=
  ⟨rfl, fun hcontra => PyError.noConfusion (Except.error.inj hcontra)⟩

/-- C4 amended: on a tampered signature (the SDK raises
`SignatureVerificationError`), the handler logs `Stripe error: ...` and
re-raises that same vendor error; no mapping to a taxonomy
`SignatureInvalid` exists in the code. -/
theorem C4_tampered_signature_reraises_stripe_error (p : WebhookPayload) (env : Env)
    (st : State) (m : String)
    (h : env.constructEvent p.payload p.sig st.creds.stripe_key =
      .error (.stripeSignatureVerification m)) :
    process_stripe_webhook p env st =
      (.error (.stripeSignatureVerification m), pushLog st ("Stripe error: " ++ m)) := by
  unfold process_stripe_webhook
  rw [h]
  rfl

/-- C4 witness: the amended theorem in `envSigTampered`. -/
theorem C4_witness :
    process_stripe_webhook p0 envSigTampered st0 =
      (.error (.stripeSignatureVerification "signature mismatch"),
       pushLog st0 "Stripe error: signature mismatch") :=
  C4_tampered_signature_reraises_stripe_error p0 envSigTampered st0 "signature mismatch" rfl

/-! ## Claim C5 -/

/-- C5: when the analytics fetch succeeds and every row has exactly the
header length, `_fetch_google_analytics_data` returns the ordered sequence
of row-records pairing each column name with the corresponding cell, in
row order (`some` marks a present cell; `none` would be a pandas `NaN`). -/
theorem C5_reshape_roundtrip (s : String) (env : Env) (st : State) (resp : GAResponse)
    (hq : env.queryReport (gaQuery s) = .ok resp)
    (hlen : ∀ r ∈ resp.rows, r.length = resp.columnHeaders.length) :
    (_fetch_google_analytics_data s env st).1 =
      .ok (resp.rows.map (fun r => resp.columnHeaders.zip (r.map some))) := by
  unfold _fetch_google_analytics_data get_google_analytics_data
  rw [hq]
  dsimp only
  rw [pandasRecords_uniform resp.rows resp.columnHeaders hlen]

/-- C5 witness: the spec's concrete round-trip example, headers
`["date","activeUsers"]` with rows `[["2023-01-01","10"],["2023-01-02","12"]]`. -/
theorem C5_witness :
    (_fetch_google_analytics_data "app-1" envOk st0).1 =
      .ok [[("date", some "2023-01-01"), ("activeUsers", some "10")],
           [("date", some "2023-01-02"), ("activeUsers", some "12")]] :=
  C5_reshape_roundtrip "app-1" envOk st0 gaRespOk rfl (by decide)

/-! ## Claim C6 -/

/-- C6 as stated is false on both counts: (1) in `envGaRagged` one row is
shorter than the header list yet the step does not fail — pandas pads the
short row with `NaN`; (2) in `envGaShort` (the spec's own example: header
length 2, every row length 1) the step does fail, but with the pandas
`ValueError` re-raised, which is not the taxonomy error
`MalformedResponse`. -/
theorem C6_counterexample :
    (_fetch_google_analytics_data "app-1" envGaRagged st0).1 =
      .ok [[("date", some "a"), ("activeUsers", some "b")],
           [("date", some "c"), ("activeUsers", none)]] ∧
    (_fetch_google_analytics_data "app-1" envGaShort st0).1 =
      .error (.valueError "2 columns passed, passed data had 1 columns") ∧
    (Except.error (PyError.valueError "2 columns passed, passed data had 1 columns") :
      Except PyError (List (List (String × Option String)))) ≠
      Except.error (PyError.taxonomy TaxErr.MalformedResponse) :=
  ⟨rfl, rfl, fun hcontra => PyError.noConfusion (Except.error.inj hcontra)⟩

/-- C6 amended: the reshaping step fails only when the row list is
nonempty and the maximum row length differs from the header count, and
then with the pandas `ValueError` (logged and re-raised by the broad
`except`), not with a taxonomy `MalformedResponse`; a row shorter than the
maximum is padded with missing values instead of failing. -/
theorem C6_width_mismatch_raises_value_error (s : String) (env : Env) (st : State)
    (resp : GAResponse) (hq : env.queryReport (gaQuery s) = .ok resp)
    (hne : resp.rows ≠ []) (hw : dfWidth resp.rows ≠ resp.columnHeaders.length) :
    (_fetch_google_analytics_data s env st).1 =
      .error (.valueError (toString resp.columnHeaders.length ++
        " columns passed, passed data had " ++ toString (dfWidth resp.rows) ++ " columns")) := by
  unfold _fetch_google_analytics_data get_google_analytics_data
  rw [hq]
  dsimp only
  have h1 : resp.rows.isEmpty = false := by
    cases hr : resp.rows with
    | nil => exact absurd hr hne
    | cons a l => rfl
  rw [pandasRecords, if_neg (by simp [h1]), if_pos hw]

/-- C6 witness: the amended theorem at the spec's own example (header
length 2, single row of length 1). -/
theorem C6_witness :
    (_fetch_google_analytics_data "app-1" envGaShort st0).1 =
      .error (.valueError ("2 columns passed, passed data had 1 columns")) :=
  C6_width_mismatch_raises_value_error "app-1" envGaShort st0
    { columnHeaders := ["date", "activeUsers"], rows := [["a"]] } rfl
    (by decide) (by decide)

/-! ## Claim C7 -/

/-- C7 as stated is false in its failure half: with invalid credentials
`list_buckets` raises the `botocore` client error, which `get_aws_usage`
propagates unmapped (its `except` clause matches only `Boto3Error`), not
the taxonomy error `ProviderUnavailable`. -/
theorem C7_counterexample :
    (get_aws_usage envAwsFail st0).1 =
      Except.error (PyError.botocoreClientError "InvalidAccessKeyId") ∧
    (Except.error (PyError.botocoreClientError "InvalidAccessKeyId") :
      Except PyError AwsUsage) ≠ Except.error (PyError.taxonomy TaxErr.ProviderUnavailable) :=
  ⟨rfl, fun hcontra => PyError.noConfusion (Except.error.inj hcontra)⟩

/-- C7 amended: on any `list_buckets` failure `get_aws_usage` re-raises
that same vendor error unmapped; on success it returns the accessible
bucket names and the client's active region. -/
theorem C7_storage_failure_propagates_unmapped (env : Env) (st : State) :
    (∀ e, env.listBuckets = .error e → (get_aws_usage env st).1 = .error e) ∧
    (∀ r, env.listBuckets = .ok r →
      (get_aws_usage env st).1 =
        .ok { buckets := r.Buckets.map (fun b => b.Name), region := env.s3Region }) := by
  constructor
  · intro e he
    unfold get_aws_usage
    rw [he]
    dsimp only
    split <;> rfl
  · intro r hr
    unfold get_aws_usage
    rw [hr]

/-- C7 witness: the amended theorem discharged on both branches — the
invalid-credentials environment and the all-good environment. -/
theorem C7_witness :
    (get_aws_usage envAwsFail st0).1 =
      .error (.botocoreClientError "InvalidAccessKeyId") ∧
    (get_aws_usage envOk st0).1 =
      .ok { buckets := ["bucket-a", "bucket-b"], region := "us-east-1" } :=
  ⟨(C7_storage_failure_propagates_unmapped envAwsFail st0).1
      (.botocoreClientError "InvalidAccessKeyId") rfl,
   (C7_storage_failure_propagates_unmapped envOk st0).2
      { Buckets := [{ Name := "bucket-a" }, { Name := "bucket-b" }] } rfl⟩

/-! ## Claim C8 -/

/-- C8 as stated is false: the method has no date-window parameter, so a
query can never be issued "for the given date window" — for the window
starting 2024-01-01 the submitted query still starts at the hard-coded
2023-01-01. -/
theorem C8_counterexample :
    (gaQuery "prop-1").start_date = "2023-01-01" ∧
    ("2023-01-01" : String) ≠ "2024-01-01" :=
  ⟨rfl, by decide⟩

/-- C8 amended: the submitted report query uses the fixed metric
`activeUsers`, the fixed dimension `date`, the given property id, and the
hard-coded date window 2023-01-01 .. 2023-12-31 (there is no caller
parameter for the window). -/
theorem C8_fixed_query_shape (pid : String) :
    gaQuery pid =
      { metrics := ["activeUsers"], dimensions := ["date"],
        start_date := "2023-01-01", end_date := "2023-12-31", property_id := pid } :=
  rfl

/-! ## Claim C9 -/

/-- C9: every operation of the integration layer — webhook handling,
storage fetch, analytics fetch, the aggregator's sub-fetches and the
aggregate fetch — leaves the four provider credential fields of the state
exactly as they were set at construction. -/
theorem C9_credentials_frame (p : WebhookPayload) (s pid : String) (env : Env) (st : State) :
    (process_stripe_webhook p env st).2.creds = st.creds ∧
    (get_aws_usage env st).2.creds = st.creds ∧
    (get_google_analytics_data pid env st).2.creds = st.creds ∧
    (_fetch_stripe_data s env st).2.creds = st.creds ∧
    (_fetch_google_analytics_data s env st).2.creds = st.creds ∧
    (fetch_saaS_usage s env st).2.creds = st.creds :=
  ⟨process_stripe_webhook_creds p env st, get_aws_usage_creds env st,
   get_google_analytics_data_creds pid env st, _fetch_stripe_data_creds s env st,
   _fetch_google_analytics_data_creds s env st, fetch_saaS_usage_creds s env st⟩

/-! ## Claim C10 -/

/-- C10: the payments sub-fetch ignores its `saas_id` argument — for any
two identifiers it builds the identical payouts request (same endpoint,
same authorization header) and, against the same external behaviour,
produces the identical result and state. -/
theorem C10_stripe_fetch_ignores_saas_id (a b : String) (c : Creds) (env : Env) (st : State) :
    stripeUsageRequest a c = stripeUsageRequest b c ∧
    _fetch_stripe_data a env st = _fetch_stripe_data b env st :=
  ⟨rfl, rfl⟩
